import Mathlib

/-!
Verification of the Hansoft SDK client wrapper (`src/hansoft/sdk.h`).

The wrapper source is a family of C functions, each of which forwards its
arguments to the corresponding entry of an externally supplied function table
(`HPMSdkFunctions`) and returns that entry's result.  We embed the wrapper
shallowly: C out-parameters become components of the returned tuple, opaque
pointers become opaque handle types, and the possible side effects of a
function-table entry are modelled by threading an abstract `World` state
through every entry.

The underlying SDK implementation (`third_party/hansoft_sdk/HPMSdk.c`,
included by the wrapper) is not part of this repository's sources, so the
semantic session/object/error core is modelled from the specification; those
definitions are marked `Modelled from the spec:` in their doc comments.
-/

/-- Modelled from the spec: the discriminated Error Result code (`HPMError`)
returned by every operation; the recognized categories of §4.1/§7.  The
wrapper itself treats the code as opaque and forwards it unchanged. -/
inductive HPMError where
  | SUCCESS
  | AUTH_FAILURE
  | NETWORK_FAILURE
  | PROTOCOL_VERSION_MISMATCH
  | NOT_FOUND
  | PERMISSION_DENIED
  | INVALID_ARGUMENT
  | SERVER_BUSY
  | INTERNAL
  deriving DecidableEq, Repr

/-- C `HPMInt32`. -/
abbrev HPMInt32 := Int

/-- C `HPMUInt32`. -/
abbrev HPMUInt32 := Nat

/-- C `HPMUniqueID`: a numeric session-scoped identifier. -/
abbrev HPMUniqueID := Int

/-- C `const HPMChar *`: a NUL-terminated string argument. -/
abbrev HPMCharPtr := String

/-- C `HPMFP64`: a 64-bit floating-point value, represented by its bit
pattern; the wrapper never inspects it. -/
structure HPMFP64 where
  bits : Nat

/-- C `void *`: an opaque pointer (session handle or object handle),
represented by its address. -/
structure VoidPtr where
  addr : Nat

/-- Opaque pointer type `HPMProjectEnum`. -/
structure HPMProjectEnum where
  ptr : Nat

/-- Opaque pointer type `HPMProjectMilestones`. -/
structure HPMProjectMilestones where
  ptr : Nat

/-- Opaque pointer type `HPMProjectSprints`. -/
structure HPMProjectSprints where
  ptr : Nat

/-- Opaque pointer type `HPMProjectProperties`. -/
structure HPMProjectProperties where
  ptr : Nat

/-- Opaque pointer type `HPMProjectWorkflowEnum`. -/
structure HPMProjectWorkflowEnum where
  ptr : Nat

/-- Opaque pointer type `HPMProjectWorkflowSettings`. -/
structure HPMProjectWorkflowSettings where
  ptr : Nat

/-- Opaque pointer type `HPMProjectCustomColumns`. -/
structure HPMProjectCustomColumns where
  ptr : Nat

/-- Opaque pointer type `HPMProjectResourceEnum`. -/
structure HPMProjectResourceEnum where
  ptr : Nat

/-- Opaque pointer type `HPMTaskEnum`. -/
structure HPMTaskEnum where
  ptr : Nat

/-- Opaque pointer type `HPMString`. -/
structure HPMString where
  ptr : Nat

/-- Opaque pointer type `HPMTaskLinkedToMilestones`. -/
structure HPMTaskLinkedToMilestones where
  ptr : Nat

/-- Opaque pointer type `HPMTaskResourceAllocation`. -/
structure HPMTaskResourceAllocation where
  ptr : Nat

/-- Opaque pointer type `HPMTaskCreateUnified` (creation payload). -/
structure HPMTaskCreateUnified where
  ptr : Nat

/-- Opaque pointer type `HPMChangeCallbackData_TaskCreateUnified`
(composite creation result). -/
structure HPMChangeCallbackData_TaskCreateUnified where
  ptr : Nat

/-- Opaque pointer type `HPMResourceProperties`. -/
structure HPMResourceProperties where
  ptr : Nat

/-- Opaque pointer type `HPMLanguage`. -/
structure HPMLanguage where
  ptr : Nat

/-- Opaque pointer type `HPMUntranslatedString`. -/
structure HPMUntranslatedString where
  ptr : Nat

/-- Opaque pointer type `HPMCertificateSettings`. -/
structure HPMCertificateSettings where
  ptr : Nat

/-- Opaque pointer type `HPMNeedSessionProcessCallbackInfo`. -/
structure HPMNeedSessionProcessCallbackInfo where
  ptr : Nat

/-- The external function table (`HPMSdkFunctions`) through which every
wrapper call is routed.  Each entry is modelled as a function from an
abstract world state `World` and its C arguments to the new world state, the
returned `HPMError`, and the values written through its out-parameters
(`Option`, since an entry may leave an out-parameter unset).  `SessionOpen`
returns the opaque session pointer and writes the error and the extended
error message through out-parameters. -/
structure HPMSdkFunctions (World : Type) where
  SessionOpen : World → HPMCharPtr → HPMInt32 → HPMCharPtr → HPMCharPtr → HPMCharPtr →
    HPMInt32 → Option HPMNeedSessionProcessCallbackInfo → HPMUInt32 → HPMInt32 →
    HPMUInt32 → HPMCharPtr → Option HPMCertificateSettings →
    World × Option VoidPtr × HPMError × Option HPMCharPtr
  SessionStop : World → VoidPtr → World × HPMError
  SessionClose : World → VoidPtr → World × HPMError
  SessionProcess : World → VoidPtr → World × HPMError
  ProjectEnum : World → VoidPtr → World × HPMError × Option HPMProjectEnum
  ProjectUtilGetBacklog : World → VoidPtr → HPMUniqueID → World × HPMError × Option HPMUniqueID
  ProjectGetMilestones : World → VoidPtr → HPMUniqueID → World × HPMError × Option HPMProjectMilestones
  ProjectGetSprints : World → VoidPtr → HPMUniqueID → World × HPMError × Option HPMProjectSprints
  ProjectGetProperties : World → VoidPtr → HPMUniqueID → World × HPMError × Option HPMProjectProperties
  ProjectWorkflowEnum : World → VoidPtr → HPMUniqueID → HPMUInt32 → World × HPMError × Option HPMProjectWorkflowEnum
  ProjectWorkflowGetSettings : World → VoidPtr → HPMUniqueID → HPMUInt32 → World × HPMError × Option HPMProjectWorkflowSettings
  ProjectCustomColumnsGet : World → VoidPtr → HPMUniqueID → World × HPMError × Option HPMProjectCustomColumns
  ProjectResourceEnum : World → VoidPtr → HPMUniqueID → World × HPMError × Option HPMProjectResourceEnum
  TaskEnum : World → VoidPtr → HPMUniqueID → World × HPMError × Option HPMTaskEnum
  TaskRefEnum : World → VoidPtr → HPMUniqueID → World × HPMError × Option HPMTaskEnum
  TaskGetDescription : World → VoidPtr → HPMUniqueID → World × HPMError × Option HPMString
  TaskSetDescription : World → VoidPtr → HPMUniqueID → HPMCharPtr → World × HPMError
  TaskGetLinkedToMilestones : World → VoidPtr → HPMUniqueID → World × HPMError × Option HPMTaskLinkedToMilestones
  TaskSetLinkedToMilestones : World → VoidPtr → HPMUniqueID → HPMTaskLinkedToMilestones → World × HPMError
  TaskGetLinkedToSprint : World → VoidPtr → HPMUniqueID → World × HPMError × Option HPMUniqueID
  TaskGetStatus : World → VoidPtr → HPMUniqueID → World × HPMError × Option HPMInt32
  TaskSetStatus : World → VoidPtr → HPMUniqueID → HPMInt32 → HPMInt32 → HPMInt32 → World × HPMError
  TaskGetWorkflow : World → VoidPtr → HPMUniqueID → World × HPMError × Option HPMUInt32
  TaskGetWorkflowStatus : World → VoidPtr → HPMUniqueID → World × HPMError × Option HPMInt32
  TaskSetWorkflowStatus : World → VoidPtr → HPMUniqueID → HPMInt32 → HPMInt32 → World × HPMError
  TaskCreateUnified : World → VoidPtr → HPMUniqueID → HPMTaskCreateUnified →
    World × HPMError × Option HPMChangeCallbackData_TaskCreateUnified
  TaskGetEstimatedIdealDays : World → VoidPtr → HPMUniqueID → World × HPMError × Option HPMFP64
  TaskSetEstimatedIdealDays : World → VoidPtr → HPMUniqueID → HPMFP64 → World × HPMError
  TaskGetResourceAllocation : World → VoidPtr → HPMUniqueID → World × HPMError × Option HPMTaskResourceAllocation
  TaskSetResourceAllocation : World → VoidPtr → HPMUniqueID → HPMTaskResourceAllocation →
    HPMInt32 → HPMInt32 → World × HPMError
  TaskGetHyperlink : World → VoidPtr → HPMUniqueID → World × HPMError × Option HPMString
  TaskSetHyperlink : World → VoidPtr → HPMUniqueID → HPMCharPtr → World × HPMError
  TaskGetBacklogPriority : World → VoidPtr → HPMUniqueID → World × HPMError × Option HPMInt32
  TaskSetBacklogPriority : World → VoidPtr → HPMUniqueID → HPMInt32 → World × HPMError
  TaskGetMainReference : World → VoidPtr → HPMUniqueID → World × HPMError × Option HPMUniqueID
  TaskRefGetTask : World → VoidPtr → HPMUniqueID → World × HPMError × Option HPMUniqueID
  TaskRefGetContainer : World → VoidPtr → HPMUniqueID → World × HPMError × Option HPMUniqueID
  ResourceGetProperties : World → VoidPtr → HPMUniqueID → World × HPMError × Option HPMResourceProperties
  UtilGetNoMilestoneID : World → VoidPtr → World × HPMError × Option HPMInt32
  LocalizationTranslateString : World → VoidPtr → HPMLanguage → HPMUntranslatedString →
    World × HPMError × Option HPMString
  ObjectFree : World → VoidPtr → VoidPtr → World × HPMError × Option HPMInt32

/-- Wrapper `session_open`: forwards every argument to `funcs->SessionOpen`
and returns its result (the session pointer, with the error and the extended
error message delivered through out-parameters). -/
def session_open {W : Type} (funcs : HPMSdkFunctions W) (w : W)
    (_pAddress : HPMCharPtr) (_Port : HPMInt32) (_pDatabase : HPMCharPtr)
    (_pResourceName : HPMCharPtr) (_pPassword : HPMCharPtr)
    (_bBlockOnOperations : HPMInt32)
    (_pNeedProcessCallback : Option HPMNeedSessionProcessCallbackInfo)
    (_SDKVersion : HPMUInt32) (_SDKDebug : HPMInt32) (_nSessions : HPMUInt32)
    (_pWorkingDirectory : HPMCharPtr)
    (_pCertificateSettings : Option HPMCertificateSettings) :
    W × Option VoidPtr × HPMError × Option HPMCharPtr :=
  funcs.SessionOpen w _pAddress _Port _pDatabase _pResourceName _pPassword
    _bBlockOnOperations _pNeedProcessCallback _SDKVersion _SDKDebug _nSessions
    _pWorkingDirectory _pCertificateSettings

/-- Wrapper `session_stop`. -/
def session_stop {W : Type} (funcs : HPMSdkFunctions W) (w : W) (_pSession : VoidPtr) :
    W × HPMError :=
  funcs.SessionStop w _pSession

/-- Wrapper `session_close`. -/
def session_close {W : Type} (funcs : HPMSdkFunctions W) (w : W) (_pSession : VoidPtr) :
    W × HPMError :=
  funcs.SessionClose w _pSession

/-- Wrapper `session_process`. -/
def session_process {W : Type} (funcs : HPMSdkFunctions W) (w : W) (_pSession : VoidPtr) :
    W × HPMError :=
  funcs.SessionProcess w _pSession

/-- Wrapper `project_enum`. -/
def project_enum {W : Type} (funcs : HPMSdkFunctions W) (w : W) (_pSession : VoidPtr) :
    W × HPMError × Option HPMProjectEnum :=
  funcs.ProjectEnum w _pSession

/-- Wrapper `project_util_get_backlog`. -/
def project_util_get_backlog {W : Type} (funcs : HPMSdkFunctions W) (w : W)
    (_pSession : VoidPtr) (_ProjectID : HPMUniqueID) :
    W × HPMError × Option HPMUniqueID :=
  funcs.ProjectUtilGetBacklog w _pSession _ProjectID

/-- Wrapper `project_get_milestones`. -/
def project_get_milestones {W : Type} (funcs : HPMSdkFunctions W) (w : W)
    (_pSession : VoidPtr) (_ProjectID : HPMUniqueID) :
    W × HPMError × Option HPMProjectMilestones :=
  funcs.ProjectGetMilestones w _pSession _ProjectID

/-- Wrapper `project_get_sprints`. -/
def project_get_sprints {W : Type} (funcs : HPMSdkFunctions W) (w : W)
    (_pSession : VoidPtr) (_ProjectID : HPMUniqueID) :
    W × HPMError × Option HPMProjectSprints :=
  funcs.ProjectGetSprints w _pSession _ProjectID

/-- Wrapper `project_get_properties`. -/
def project_get_properties {W : Type} (funcs : HPMSdkFunctions W) (w : W)
    (_pSession : VoidPtr) (_ProjectID : HPMUniqueID) :
    W × HPMError × Option HPMProjectProperties :=
  funcs.ProjectGetProperties w _pSession _ProjectID

/-- Wrapper `project_workflow_enum`. -/
def project_workflow_enum {W : Type} (funcs : HPMSdkFunctions W) (w : W)
    (_pSession : VoidPtr) (_ProjectID : HPMUniqueID) (_bOnlyNewestVersions : HPMUInt32) :
    W × HPMError × Option HPMProjectWorkflowEnum :=
  funcs.ProjectWorkflowEnum w _pSession _ProjectID _bOnlyNewestVersions

/-- Wrapper `project_workflow_get_settings`. -/
def project_workflow_get_settings {W : Type} (funcs : HPMSdkFunctions W) (w : W)
    (_pSession : VoidPtr) (_ProjectID : HPMUniqueID) (_WorkflowID : HPMUInt32) :
    W × HPMError × Option HPMProjectWorkflowSettings :=
  funcs.ProjectWorkflowGetSettings w _pSession _ProjectID _WorkflowID

/-- Wrapper `project_custom_columns_get`. -/
def project_custom_columns_get {W : Type} (funcs : HPMSdkFunctions W) (w : W)
    (_pSession : VoidPtr) (_ProjectID : HPMUniqueID) :
    W × HPMError × Option HPMProjectCustomColumns :=
  funcs.ProjectCustomColumnsGet w _pSession _ProjectID

/-- Wrapper `project_resource_enum`. -/
def project_resource_enum {W : Type} (funcs : HPMSdkFunctions W) (w : W)
    (_pSession : VoidPtr) (_ProjectID : HPMUniqueID) :
    W × HPMError × Option HPMProjectResourceEnum :=
  funcs.ProjectResourceEnum w _pSession _ProjectID

/-- Wrapper `task_enum`. -/
def task_enum {W : Type} (funcs : HPMSdkFunctions W) (w : W)
    (_pSession : VoidPtr) (_ContainerID : HPMUniqueID) :
    W × HPMError × Option HPMTaskEnum :=
  funcs.TaskEnum w _pSession _ContainerID

/-- Wrapper `task_ref_enum`. -/
def task_ref_enum {W : Type} (funcs : HPMSdkFunctions W) (w : W)
    (_pSession : VoidPtr) (_ContainerID : HPMUniqueID) :
    W × HPMError × Option HPMTaskEnum :=
  funcs.TaskRefEnum w _pSession _ContainerID

/-- Wrapper `task_get_description`. -/
def task_get_description {W : Type} (funcs : HPMSdkFunctions W) (w : W)
    (_pSession : VoidPtr) (_TaskID : HPMUniqueID) :
    W × HPMError × Option HPMString :=
  funcs.TaskGetDescription w _pSession _TaskID

/-- Wrapper `task_set_description`. -/
def task_set_description {W : Type} (funcs : HPMSdkFunctions W) (w : W)
    (_pSession : VoidPtr) (_TaskID : HPMUniqueID) (_pData : HPMCharPtr) :
    W × HPMError :=
  funcs.TaskSetDescription w _pSession _TaskID _pData

/-- Wrapper `task_get_linked_to_milestones`. -/
def task_get_linked_to_milestones {W : Type} (funcs : HPMSdkFunctions W) (w : W)
    (_pSession : VoidPtr) (_TaskID : HPMUniqueID) :
    W × HPMError × Option HPMTaskLinkedToMilestones :=
  funcs.TaskGetLinkedToMilestones w _pSession _TaskID

/-- Wrapper `task_set_linked_to_milestones`. -/
def task_set_linked_to_milestones {W : Type} (funcs : HPMSdkFunctions W) (w : W)
    (_pSession : VoidPtr) (_TaskID : HPMUniqueID) (_pData : HPMTaskLinkedToMilestones) :
    W × HPMError :=
  funcs.TaskSetLinkedToMilestones w _pSession _TaskID _pData

/-- Wrapper `task_get_linked_to_sprint`. -/
def task_get_linked_to_sprint {W : Type} (funcs : HPMSdkFunctions W) (w : W)
    (_pSession : VoidPtr) (_TaskID : HPMUniqueID) :
    W × HPMError × Option HPMUniqueID :=
  funcs.TaskGetLinkedToSprint w _pSession _TaskID

/-- Wrapper `task_get_status`. -/
def task_get_status {W : Type} (funcs : HPMSdkFunctions W) (w : W)
    (_pSession : VoidPtr) (_TaskID : HPMUniqueID) :
    W × HPMError × Option HPMInt32 :=
  funcs.TaskGetStatus w _pSession _TaskID

/-- Wrapper `task_set_status`. -/
def task_set_status {W : Type} (funcs : HPMSdkFunctions W) (w : W)
    (_pSession : VoidPtr) (_TaskID : HPMUniqueID) (_Data : HPMInt32)
    (_bGotoWorkflowStatus : HPMInt32) (_SetStatusFlags : HPMInt32) :
    W × HPMError :=
  funcs.TaskSetStatus w _pSession _TaskID _Data _bGotoWorkflowStatus _SetStatusFlags

/-- Wrapper `task_get_workflow`. -/
def task_get_workflow {W : Type} (funcs : HPMSdkFunctions W) (w : W)
    (_pSession : VoidPtr) (_TaskID : HPMUniqueID) :
    W × HPMError × Option HPMUInt32 :=
  funcs.TaskGetWorkflow w _pSession _TaskID

/-- Wrapper `task_get_workflow_status`. -/
def task_get_workflow_status {W : Type} (funcs : HPMSdkFunctions W) (w : W)
    (_pSession : VoidPtr) (_TaskID : HPMUniqueID) :
    W × HPMError × Option HPMInt32 :=
  funcs.TaskGetWorkflowStatus w _pSession _TaskID

/-- Wrapper `task_set_workflow_status`. -/
def task_set_workflow_status {W : Type} (funcs : HPMSdkFunctions W) (w : W)
    (_pSession : VoidPtr) (_TaskID : HPMUniqueID) (_Data : HPMInt32) (_Flags : HPMInt32) :
    W × HPMError :=
  funcs.TaskSetWorkflowStatus w _pSession _TaskID _Data _Flags

/-- Wrapper `task_create_unified`. -/
def task_create_unified {W : Type} (funcs : HPMSdkFunctions W) (w : W)
    (_pSession : VoidPtr) (_ContainerID : HPMUniqueID) (_pCreateData : HPMTaskCreateUnified) :
    W × HPMError × Option HPMChangeCallbackData_TaskCreateUnified :=
  funcs.TaskCreateUnified w _pSession _ContainerID _pCreateData

/-- Wrapper `task_get_estimated_ideal_days`. -/
def task_get_estimated_ideal_days {W : Type} (funcs : HPMSdkFunctions W) (w : W)
    (_pSession : VoidPtr) (_TaskID : HPMUniqueID) :
    W × HPMError × Option HPMFP64 :=
  funcs.TaskGetEstimatedIdealDays w _pSession _TaskID

/-- Wrapper `task_set_estimated_ideal_days`. -/
def task_set_estimated_ideal_days {W : Type} (funcs : HPMSdkFunctions W) (w : W)
    (_pSession : VoidPtr) (_TaskID : HPMUniqueID) (_pData : HPMFP64) :
    W × HPMError :=
  funcs.TaskSetEstimatedIdealDays w _pSession _TaskID _pData

/-- Wrapper `task_get_resource_allocation`. -/
def task_get_resource_allocation {W : Type} (funcs : HPMSdkFunctions W) (w : W)
    (_pSession : VoidPtr) (_TaskID : HPMUniqueID) :
    W × HPMError × Option HPMTaskResourceAllocation :=
  funcs.TaskGetResourceAllocation w _pSession _TaskID

/-- Wrapper `task_set_resource_allocation`. -/
def task_set_resource_allocation {W : Type} (funcs : HPMSdkFunctions W) (w : W)
    (_pSession : VoidPtr) (_TaskID : HPMUniqueID) (_pData : HPMTaskResourceAllocation)
    (_bGotoWorkflowStatusWhenAssigned : HPMInt32) (_SetStatusFlags : HPMInt32) :
    W × HPMError :=
  funcs.TaskSetResourceAllocation w _pSession _TaskID _pData
    _bGotoWorkflowStatusWhenAssigned _SetStatusFlags

/-- Wrapper `task_get_hyperlink`. -/
def task_get_hyperlink {W : Type} (funcs : HPMSdkFunctions W) (w : W)
    (_pSession : VoidPtr) (_TaskID : HPMUniqueID) :
    W × HPMError × Option HPMString :=
  funcs.TaskGetHyperlink w _pSession _TaskID

/-- Wrapper `task_set_hyperlink`. -/
def task_set_hyperlink {W : Type} (funcs : HPMSdkFunctions W) (w : W)
    (_pSession : VoidPtr) (_TaskID : HPMUniqueID) (_pData : HPMCharPtr) :
    W × HPMError :=
  funcs.TaskSetHyperlink w _pSession _TaskID _pData

/-- Wrapper `task_get_backlog_priority`. -/
def task_get_backlog_priority {W : Type} (funcs : HPMSdkFunctions W) (w : W)
    (_pSession : VoidPtr) (_TaskID : HPMUniqueID) :
    W × HPMError × Option HPMInt32 :=
  funcs.TaskGetBacklogPriority w _pSession _TaskID

/-- Wrapper `task_set_backlog_priority`. -/
def task_set_backlog_priority {W : Type} (funcs : HPMSdkFunctions W) (w : W)
    (_pSession : VoidPtr) (_TaskID : HPMUniqueID) (_Data : HPMInt32) :
    W × HPMError :=
  funcs.TaskSetBacklogPriority w _pSession _TaskID _Data

/-- Wrapper `task_get_main_reference`. -/
def task_get_main_reference {W : Type} (funcs : HPMSdkFunctions W) (w : W)
    (_pSession : VoidPtr) (_TaskID : HPMUniqueID) :
    W × HPMError × Option HPMUniqueID :=
  funcs.TaskGetMainReference w _pSession _TaskID

/-- Wrapper `task_ref_get_task`. -/
def task_ref_get_task {W : Type} (funcs : HPMSdkFunctions W) (w : W)
    (_pSession : VoidPtr) (_TaskRefID : HPMUniqueID) :
    W × HPMError × Option HPMUniqueID :=
  funcs.TaskRefGetTask w _pSession _TaskRefID

/-- Wrapper `task_ref_get_container`. -/
def task_ref_get_container {W : Type} (funcs : HPMSdkFunctions W) (w : W)
    (_pSession : VoidPtr) (_TaskRefID : HPMUniqueID) :
    W × HPMError × Option HPMUniqueID :=
  funcs.TaskRefGetContainer w _pSession _TaskRefID

/-- Wrapper `resource_get_properties`. -/
def resource_get_properties {W : Type} (funcs : HPMSdkFunctions W) (w : W)
    (_pSession : VoidPtr) (_ResourceID : HPMUniqueID) :
    W × HPMError × Option HPMResourceProperties :=
  funcs.ResourceGetProperties w _pSession _ResourceID

/-- Wrapper `util_get_no_milestone_id`. -/
def util_get_no_milestone_id {W : Type} (funcs : HPMSdkFunctions W) (w : W)
    (_pSession : VoidPtr) :
    W × HPMError × Option HPMInt32 :=
  funcs.UtilGetNoMilestoneID w _pSession

/-- Wrapper `localization_translate_string`. -/
def localization_translate_string {W : Type} (funcs : HPMSdkFunctions W) (w : W)
    (_pSession : VoidPtr) (_pLanguage : HPMLanguage) (_pUntranslatedString : HPMUntranslatedString) :
    W × HPMError × Option HPMString :=
  funcs.LocalizationTranslateString w _pSession _pLanguage _pUntranslatedString

/-- Wrapper `object_free`: forwards to `funcs->ObjectFree`; the
whether-deletion-occurred flag is delivered through the `_pDeleted`
out-parameter. -/
def object_free {W : Type} (funcs : HPMSdkFunctions W) (w : W)
    (_pSession : VoidPtr) (_pObject : VoidPtr) :
    W × HPMError × Option HPMInt32 :=
  funcs.ObjectFree w _pSession _pObject

/-- How a public wrapper operation delivers its Error Result to the caller:
through an out-parameter (`viaOutParam`, the `_pError` pointer of
`session_open`) or as the function's return value (`viaReturnValue`,
the `HPMError` return type of every other wrapper). -/
inductive ErrorDelivery where
  | viaOutParam
  | viaReturnValue
  deriving DecidableEq, Repr

/-- Signature-shape descriptor of one public wrapper operation, read off the
C declarations in `src/hansoft/sdk.h`: how the `HPMError` is delivered,
whether the function's return value is the opaque session pointer, whether it
has the extended-error-message out-parameter, and whether it has the
`_pDeleted` out-parameter. -/
structure OpSig where
  name : String
  errorDelivery : ErrorDelivery
  returnsSessionPointer : Bool
  hasExtendedErrorMessageOut : Bool
  hasDeletedOut : Bool
  deriving DecidableEq, Repr

/-- The signature-shape descriptors of all 41 public wrapper operations, in
source order. -/
def publicOps : List OpSig :=
  [⟨"session_open", ErrorDelivery.viaOutParam, true, true, false⟩,
   ⟨"session_stop", ErrorDelivery.viaReturnValue, false, false, false⟩,
   ⟨"session_close", ErrorDelivery.viaReturnValue, false, false, false⟩,
   ⟨"session_process", ErrorDelivery.viaReturnValue, false, false, false⟩,
   ⟨"project_enum", ErrorDelivery.viaReturnValue, false, false, false⟩,
   ⟨"project_util_get_backlog", ErrorDelivery.viaReturnValue, false, false, false⟩,
   ⟨"project_get_milestones", ErrorDelivery.viaReturnValue, false, false, false⟩,
   ⟨"project_get_sprints", ErrorDelivery.viaReturnValue, false, false, false⟩,
   ⟨"project_get_properties", ErrorDelivery.viaReturnValue, false, false, false⟩,
   ⟨"project_workflow_enum", ErrorDelivery.viaReturnValue, false, false, false⟩,
   ⟨"project_workflow_get_settings", ErrorDelivery.viaReturnValue, false, false, false⟩,
   ⟨"project_custom_columns_get", ErrorDelivery.viaReturnValue, false, false, false⟩,
   ⟨"project_resource_enum", ErrorDelivery.viaReturnValue, false, false, false⟩,
   ⟨"task_enum", ErrorDelivery.viaReturnValue, false, false, false⟩,
   ⟨"task_ref_enum", ErrorDelivery.viaReturnValue, false, false, false⟩,
   ⟨"task_get_description", ErrorDelivery.viaReturnValue, false, false, false⟩,
   ⟨"task_set_description", ErrorDelivery.viaReturnValue, false, false, false⟩,
   ⟨"task_get_linked_to_milestones", ErrorDelivery.viaReturnValue, false, false, false⟩,
   ⟨"task_set_linked_to_milestones", ErrorDelivery.viaReturnValue, false, false, false⟩,
   ⟨"task_get_linked_to_sprint", ErrorDelivery.viaReturnValue, false, false, false⟩,
   ⟨"task_get_status", ErrorDelivery.viaReturnValue, false, false, false⟩,
   ⟨"task_set_status", ErrorDelivery.viaReturnValue, false, false, false⟩,
   ⟨"task_get_workflow", ErrorDelivery.viaReturnValue, false, false, false⟩,
   ⟨"task_get_workflow_status", ErrorDelivery.viaReturnValue, false, false, false⟩,
   ⟨"task_set_workflow_status", ErrorDelivery.viaReturnValue, false, false, false⟩,
   ⟨"task_create_unified", ErrorDelivery.viaReturnValue, false, false, false⟩,
   ⟨"task_get_estimated_ideal_days", ErrorDelivery.viaReturnValue, false, false, false⟩,
   ⟨"task_set_estimated_ideal_days", ErrorDelivery.viaReturnValue, false, false, false⟩,
   ⟨"task_get_resource_allocation", ErrorDelivery.viaReturnValue, false, false, false⟩,
   ⟨"task_set_resource_allocation", ErrorDelivery.viaReturnValue, false, false, false⟩,
   ⟨"task_get_hyperlink", ErrorDelivery.viaReturnValue, false, false, false⟩,
   ⟨"task_set_hyperlink", ErrorDelivery.viaReturnValue, false, false, false⟩,
   ⟨"task_get_backlog_priority", ErrorDelivery.viaReturnValue, false, false, false⟩,
   ⟨"task_set_backlog_priority", ErrorDelivery.viaReturnValue, false, false, false⟩,
   ⟨"task_get_main_reference", ErrorDelivery.viaReturnValue, false, false, false⟩,
   ⟨"task_ref_get_task", ErrorDelivery.viaReturnValue, false, false, false⟩,
   ⟨"task_ref_get_container", ErrorDelivery.viaReturnValue, false, false, false⟩,
   ⟨"resource_get_properties", ErrorDelivery.viaReturnValue, false, false, false⟩,
   ⟨"util_get_no_milestone_id", ErrorDelivery.viaReturnValue, false, false, false⟩,
   ⟨"localization_translate_string", ErrorDelivery.viaReturnValue, false, false, false⟩,
   ⟨"object_free", ErrorDelivery.viaReturnValue, false, false, true⟩]

/-- Modelled from the spec: the Session lifecycle states of §4.3
(`CLOSED → (open) → OPEN → (stop) → STOPPING → (close) → CLOSED`).  The
session state machine lives in `third_party/hansoft_sdk/HPMSdk.c`, which is
not part of this repository's sources. -/
inductive SessionPhase where
  | OPEN
  | STOPPING
  | CLOSED
  deriving DecidableEq, Repr

/-- Modelled from the spec: one tracked Opaque Result Object in the Object
Lifetime Manager's arena (§4.2, §9) — its handle and the handles of all
objects nested inside it (the subtree it owns). -/
structure TrackedObject where
  handle : Nat
  nested : List Nat
  deriving DecidableEq, Repr

/-- Modelled from the spec: the Object Lifetime Manager of §4.2 — the arena
of currently tracked (live, not yet released) objects for one Session.  The
real manager lives in `third_party/hansoft_sdk/HPMSdk.c`, outside this
repository's sources. -/
structure LifetimeManager where
  tracked : List TrackedObject
  deriving DecidableEq, Repr

/-- Modelled from the spec: `release(handle) -> boolean_deleted` of §4.2.
If the handle is currently tracked, the object and every object nested
inside it are removed from the arena and `true` (deleted) is returned;
releasing an already-released or unknown handle is reported by returning
`false` (not deleted) rather than faulting. -/
def LifetimeManager.release (m : LifetimeManager) (h : Nat) : LifetimeManager × Bool :=
  match m.tracked.find? (fun o => decide (o.handle = h)) with
  | some o =>
      (⟨m.tracked.filter (fun p => decide (p.handle ≠ h ∧ p.handle ∉ o.nested))⟩, true)
  | none => (m, false)

/-- Modelled from the spec: the client-visible state of one Session (§3,
§4.3) — its lifecycle phase, its 1:1-owned Object Lifetime Manager, the
queue of pending network work items (opaque tokens), and a count of network
round-trips performed (observable network activity). -/
structure SessionState where
  phase : SessionPhase
  olm : LifetimeManager
  pending : List Nat
  roundTrips : Nat
  deriving DecidableEq, Repr

/-- Modelled from the spec: one Task entity record (§3) — the container it
lives under and its description field. -/
structure TaskRecord where
  container : HPMUniqueID
  description : String
  deriving DecidableEq, Repr

/-- Modelled from the spec: the server-side state visible through one
Session (§3, §4.4) — live task/taskref identifiers, container identifiers,
deleted identifiers, per-identifier authorization, the record attached to
each live task identifier, taskref resolution maps, the next fresh
identifier, and the localization string tables (per-language map plus
fallback) of §4.5. -/
structure ServerState where
  live : List HPMUniqueID
  containers : List HPMUniqueID
  deleted : List HPMUniqueID
  auth : HPMUniqueID → Bool
  record : HPMUniqueID → TaskRecord
  refTask : HPMUniqueID → HPMUniqueID
  refContainer : HPMUniqueID → HPMUniqueID
  nextId : HPMUniqueID
  translations : String → String → Option String
  fallback : String → Option String

/-- Modelled from the spec: the common identifier checks every Entity Access
operation performs (§4.3 invariant, §4.4 edge-case policy): outside OPEN the
call is invalid (INTERNAL, the "Session not open" error); a deleted
identifier is NOT_FOUND; an identifier absent from the given pool is
NOT_FOUND; an unauthorized identifier is PERMISSION_DENIED; otherwise the
checks pass (`none`). -/
def idCheck (srv : ServerState) (ss : SessionState) (pool : List HPMUniqueID)
    (id : HPMUniqueID) : Option HPMError :=
  if ss.phase ≠ SessionPhase.OPEN then some HPMError.INTERNAL
  else if id ∈ srv.deleted then some HPMError.NOT_FOUND
  else if id ∈ pool then
    (if srv.auth id then none else some HPMError.PERMISSION_DENIED)
  else some HPMError.NOT_FOUND

/-- Modelled from the spec: the session-open transition of §4.3 — valid only
from CLOSED, moving the Session to OPEN; otherwise the state is unchanged
and an error is reported. -/
def m_session_open (ss : SessionState) : SessionState × HPMError :=
  if ss.phase = SessionPhase.CLOSED then
    ({ ss with phase := SessionPhase.OPEN }, HPMError.SUCCESS)
  else (ss, HPMError.INTERNAL)

/-- Modelled from the spec: `stop() -> Error` of §4.3 — valid only from
OPEN, moving the Session to STOPPING; otherwise the state is unchanged and
an error is reported. -/
def m_session_stop (ss : SessionState) : SessionState × HPMError :=
  if ss.phase = SessionPhase.OPEN then
    ({ ss with phase := SessionPhase.STOPPING }, HPMError.SUCCESS)
  else (ss, HPMError.INTERNAL)

/-- Modelled from the spec: `close() -> Error` of §4.3 — valid from
STOPPING per the state diagram, moving the Session to CLOSED and tearing
down its Object Lifetime Manager synchronously (every still-tracked object
is released/invalidated, and the pending-work queue is dropped); otherwise
the state is unchanged and an error is reported. -/
def m_session_close (ss : SessionState) : SessionState × HPMError :=
  if ss.phase = SessionPhase.STOPPING then
    ({ phase := SessionPhase.CLOSED, olm := ⟨[]⟩, pending := [],
       roundTrips := ss.roundTrips }, HPMError.SUCCESS)
  else (ss, HPMError.INTERNAL)

/-- Modelled from the spec: `process() -> Error` of §4.3 — with no pending
network work it is a no-op returning SUCCESS; otherwise it drains one
pending work item (performing a network round-trip) and returns SUCCESS. -/
def m_session_process (ss : SessionState) : SessionState × HPMError :=
  match ss.pending with
  | [] => (ss, HPMError.SUCCESS)
  | _ :: rest =>
      ({ ss with pending := rest, roundTrips := ss.roundTrips + 1 }, HPMError.SUCCESS)

/-- Modelled from the spec: `task_enum` over the Entity Access contract of
§4.4 — after the common identifier checks on the container, returns SUCCESS
together with the enumeration of live tasks whose record names that
container; on any failed check, the error together with no output object. -/
def m_task_enum (srv : ServerState) (ss : SessionState) (cid : HPMUniqueID) :
    HPMError × Option (List HPMUniqueID) :=
  match idCheck srv ss srv.containers cid with
  | some e => (e, none)
  | none =>
      (HPMError.SUCCESS, some (srv.live.filter (fun i => decide ((srv.record i).container = cid))))

/-- Modelled from the spec: `task_get_description` over the Entity Access
contract of §4.4 — after the common identifier checks, returns SUCCESS with
the task's description; on any failed check, the error with no output. -/
def m_task_get_description (srv : ServerState) (ss : SessionState) (tid : HPMUniqueID) :
    HPMError × Option String :=
  match idCheck srv ss srv.live tid with
  | some e => (e, none)
  | none => (HPMError.SUCCESS, some (srv.record tid).description)

/-- Modelled from the spec: `task_set_description` over the Entity Access
contract of §4.4 — after the common identifier checks, updates the task's
description on the server and returns SUCCESS; on any failed check, the
server state is unchanged and the error is returned. -/
def m_task_set_description (srv : ServerState) (ss : SessionState) (tid : HPMUniqueID)
    (v : String) : ServerState × HPMError :=
  match idCheck srv ss srv.live tid with
  | some e => (srv, e)
  | none =>
      ({ srv with record := fun i =>
          if i = tid then { srv.record tid with description := v } else srv.record i },
       HPMError.SUCCESS)

/-- Modelled from the spec: `task_ref_get_task` cross-reference resolution
of §4.4 — after the common identifier checks on the task reference, returns
SUCCESS with the owning task's identifier. -/
def m_task_ref_get_task (srv : ServerState) (ss : SessionState) (rid : HPMUniqueID) :
    HPMError × Option HPMUniqueID :=
  match idCheck srv ss srv.live rid with
  | some e => (e, none)
  | none => (HPMError.SUCCESS, some (srv.refTask rid))

/-- Modelled from the spec: the structured Task creation payload of §4.4
(scenario §8 uses `{title:"T1"}`); `title` is the required field, so a
payload with `title = none` is malformed. -/
structure TaskCreatePayload where
  title : Option String
  deriving DecidableEq, Repr

/-- Modelled from the spec: the composite creation result of §4.4, carrying
the new identifier plus server-assigned derived values (initial backlog
priority). -/
structure TaskCreateResult where
  newTaskId : HPMUniqueID
  initialBacklogPriority : HPMInt32
  deriving DecidableEq, Repr

/-- Modelled from the spec: `task_create_unified` of §4.4 — a malformed
payload (missing required `title`) is rejected with INVALID_ARGUMENT before
any network round-trip (cheap local validation: the session's round-trip
count and the server are untouched); otherwise the request goes to the
server (one round-trip) where the deleted/unknown container is NOT_FOUND,
an unauthorized container is PERMISSION_DENIED, and on success a fresh task
is created under the container and the composite result (new identifier and
initial backlog priority) is returned. -/
def m_task_create_unified (srv : ServerState) (ss : SessionState) (cid : HPMUniqueID)
    (payload : TaskCreatePayload) :
    ServerState × SessionState × HPMError × Option TaskCreateResult :=
  if ss.phase ≠ SessionPhase.OPEN then (srv, ss, HPMError.INTERNAL, none)
  else if payload.title = none then (srv, ss, HPMError.INVALID_ARGUMENT, none)
  else
    let ss3 := { ss with roundTrips := ss.roundTrips + 1 }
    if cid ∈ srv.deleted then (srv, ss3, HPMError.NOT_FOUND, none)
    else if cid ∈ srv.containers then
      (if srv.auth cid then
        ({ srv with live := srv.nextId :: srv.live,
                    record := fun i =>
                      if i = srv.nextId then ⟨cid, ""⟩ else srv.record i,
                    nextId := srv.nextId + 1 },
         ss3, HPMError.SUCCESS, some ⟨srv.nextId, 0⟩)
      else (srv, ss3, HPMError.PERMISSION_DENIED, none))
    else (srv, ss3, HPMError.NOT_FOUND, none)

/-- Modelled from the spec: `translate(Session, language,
untranslated_template)` of §4.5 — a pure lookup in the per-language string
table, falling back to the fallback table, reporting NOT_FOUND when neither
has a mapping; server and session state are returned unchanged (no
mutation). -/
def m_localization_translate_string (srv : ServerState) (ss : SessionState)
    (lang tmpl : String) : ServerState × SessionState × HPMError × Option String :=
  match srv.translations lang tmpl with
  | some s => (srv, ss, HPMError.SUCCESS, some s)
  | none =>
      match srv.fallback tmpl with
      | some s => (srv, ss, HPMError.SUCCESS, some s)
      | none => (srv, ss, HPMError.NOT_FOUND, none)

/-- Modelled from the spec: `object_free` routed through the Object Lifetime
Manager (§4.2) — releases the handle via `LifetimeManager.release`, returns
SUCCESS, and reports through the deleted flag whether deletion actually
occurred (false on a second release, without faulting). -/
def m_object_free (ss : SessionState) (h : Nat) : SessionState × HPMError × Bool :=
  ({ ss with olm := (ss.olm.release h).1 }, HPMError.SUCCESS, (ss.olm.release h).2)

/-- A sample server state used by the concrete witnesses: identifier 1 is a
live authorized task under container 7, identifier 5 is live but
unauthorized, identifier 9 is deleted, and the localization tables are
empty. -/
def srvW : ServerState :=
  { live := [1, 5], containers := [7], deleted := [9],
    auth := fun i => i != 5,
    record := fun _ => ⟨7, ""⟩,
    refTask := fun _ => 1,
    refContainer := fun _ => 7,
    nextId := 10,
    translations := fun _ _ => none,
    fallback := fun _ => none }

/-- A sample open session used by the concrete witnesses: tracked object 1
contains object 2; no pending work. -/
def ssOpenW : SessionState :=
  { phase := SessionPhase.OPEN, olm := ⟨[⟨1, [2]⟩, ⟨2, []⟩]⟩,
    pending := [], roundTrips := 0 }

/-- A sample stopping session used by the concrete witnesses. -/
def ssStopW : SessionState :=
  { phase := SessionPhase.STOPPING, olm := ⟨[⟨1, []⟩]⟩,
    pending := [], roundTrips := 0 }

/-- Helper: the common identifier check never reports SUCCESS — its `some`
results are always genuine error kinds. -/
theorem idCheck_ne_success (srv : ServerState) (ss : SessionState)
    (pool : List HPMUniqueID) (id : HPMUniqueID) :
    idCheck srv ss pool id ≠ some HPMError.SUCCESS := by
  unfold idCheck
  split
  · simp
  · split
    · simp
    · split
      · split <;> simp
      · simp

/-- Helper: after releasing handle `h`, no tracked object with handle `h`
remains in the arena. -/
theorem release_find_eq_none (m : LifetimeManager) (h : Nat) :
    ((m.release h).1).tracked.find? (fun o => decide (o.handle = h)) = none := by
  unfold LifetimeManager.release
  cases hf : m.tracked.find? (fun o => decide (o.handle = h)) with
  | none => simpa using hf
  | some o =>
      simp only []
      rw [List.find?_eq_none]
      intro x hx
      have hm := List.mem_filter.mp hx
      have hprop := of_decide_eq_true hm.2
      simp [hprop.1]

/-- Helper: after releasing a container handle `h` whose tracked object
nests `h'`, no tracked object with handle `h'` remains in the arena. -/
theorem release_nested_find_eq_none (m : LifetimeManager) (h h' : Nat) (o : TrackedObject)
    (hf : m.tracked.find? (fun p => decide (p.handle = h)) = some o)
    (hn : h' ∈ o.nested) :
    ((m.release h).1).tracked.find? (fun p => decide (p.handle = h')) = none := by
  unfold LifetimeManager.release
  rw [hf]
  simp only []
  rw [List.find?_eq_none]
  intro x hx
  have hm := List.mem_filter.mp hx
  have hprop := of_decide_eq_true hm.2
  intro hxh
  have hxh' := of_decide_eq_true hxh
  exact hprop.2 (hxh' ▸ hn)

/-- Helper: releasing a handle that is no longer tracked reports
`false` (not deleted). -/
theorem release_not_found_false (m : LifetimeManager) (h : Nat)
    (hf : m.tracked.find? (fun o => decide (o.handle = h)) = none) :
    (m.release h).2 = false := by
  unfold LifetimeManager.release
  rw [hf]

/-- C1: For every Entity Access operation (task_enum, task_get_description,
task_ref_get_task, task_create_unified, localization_translate_string), the
returned Error Result is SUCCESS if and only if the output object is set:
no call reports SUCCESS while leaving its output unset, and no call reports
a non-SUCCESS kind while also returning a usable output object. -/
theorem entity_access_success_iff_output_set :
    (∀ srv ss cid, (m_task_enum srv ss cid).1 = HPMError.SUCCESS ↔
      ((m_task_enum srv ss cid).2).isSome = true) ∧
    (∀ srv ss tid, (m_task_get_description srv ss tid).1 = HPMError.SUCCESS ↔
      ((m_task_get_description srv ss tid).2).isSome = true) ∧
    (∀ srv ss rid, (m_task_ref_get_task srv ss rid).1 = HPMError.SUCCESS ↔
      ((m_task_ref_get_task srv ss rid).2).isSome = true) ∧
    (∀ srv ss cid p, (m_task_create_unified srv ss cid p).2.2.1 = HPMError.SUCCESS ↔
      ((m_task_create_unified srv ss cid p).2.2.2).isSome = true) ∧
    (∀ srv ss lang tmpl,
      (m_localization_translate_string srv ss lang tmpl).2.2.1 = HPMError.SUCCESS ↔
      ((m_localization_translate_string srv ss lang tmpl).2.2.2).isSome = true) := by
  refine ⟨?_, ?_, ?_, ?_, ?_⟩
  · intro srv ss cid
    cases hc : idCheck srv ss srv.containers cid with
    | some e =>
        have hne := idCheck_ne_success srv ss srv.containers cid
        rw [hc] at hne
        simp [m_task_enum, hc]
        intro he
        exact hne (by rw [he])
    | none => simp [m_task_enum, hc]
  · intro srv ss tid
    cases hc : idCheck srv ss srv.live tid with
    | some e =>
        have hne := idCheck_ne_success srv ss srv.live tid
        rw [hc] at hne
        simp [m_task_get_description, hc]
        intro he
        exact hne (by rw [he])
    | none => simp [m_task_get_description, hc]
  · intro srv ss rid
    cases hc : idCheck srv ss srv.live rid with
    | some e =>
        have hne := idCheck_ne_success srv ss srv.live rid
        rw [hc] at hne
        simp [m_task_ref_get_task, hc]
        intro he
        exact hne (by rw [he])
    | none => simp [m_task_ref_get_task, hc]
  · intro srv ss cid p
    unfold m_task_create_unified
    split
    · simp
    · split
      · simp
      · split
        · simp
        · split
          · split <;> simp
          · simp
  · intro srv ss lang tmpl
    unfold m_localization_translate_string
    split
    · simp
    · split <;> simp

/-- C3: a second `object_free` on an already-released object reports
"not deleted" (deleted flag `false`) and never faults (`m_object_free` is a
total function returning SUCCESS); releasing a container object invalidates
every object nested inside it, so a subsequent release of a nested object
also reports "not deleted". -/
theorem object_free_double_release_not_deleted :
    (∀ ss h, (m_object_free (m_object_free ss h).1 h).2.2 = false) ∧
    (∀ ss h h' o,
      ss.olm.tracked.find? (fun p => decide (p.handle = h)) = some o →
      h' ∈ o.nested →
      (m_object_free (m_object_free ss h).1 h').2.2 = false) := by
  constructor
  · intro ss h
    unfold m_object_free
    exact release_not_found_false _ h (release_find_eq_none ss.olm h)
  · intro ss h h' o hf hn
    unfold m_object_free
    exact release_not_found_false _ h' (release_nested_find_eq_none ss.olm h h' o hf hn)

/-- C4: read-your-writes — if `task_set_description` on identifier `tid`
returns SUCCESS, a subsequent `task_get_description` on `tid` within the
same Session observes the new value. -/
theorem set_then_get_reads_new_value (srv : ServerState) (ss : SessionState)
    (tid : HPMUniqueID) (v : String)
    (h : (m_task_set_description srv ss tid v).2 = HPMError.SUCCESS) :
    m_task_get_description (m_task_set_description srv ss tid v).1 ss tid =
      (HPMError.SUCCESS, some v) := by
  unfold m_task_set_description idCheck at h ⊢
  by_cases h1 : ss.phase = SessionPhase.OPEN
  · by_cases h2 : tid ∈ srv.deleted
    · simp [h1, h2] at h
    · by_cases h3 : tid ∈ srv.live
      · by_cases h4 : srv.auth tid
        · simp only [h1, h2, h3, h4]
          simp only [h1, h2, h3, h4] at h ⊢
          unfold m_task_get_description idCheck
          simp [h1, h2, h3, h4]
        · simp [h1, h2, h3, h4] at h
      · simp [h1, h2, h3] at h
  · simp [h1] at h

/-- C5: a successful `session_close` tears down the Session's Object
Lifetime Manager — afterwards the set of tracked objects is empty (no leak
and no surviving tracked object). -/
theorem session_close_clears_tracked_objects (ss : SessionState)
    (h : (m_session_close ss).2 = HPMError.SUCCESS) :
    ((m_session_close ss).1).olm.tracked = [] := by
  unfold m_session_close at h ⊢
  by_cases hc : ss.phase = SessionPhase.STOPPING
  · simp [hc]
  · simp [hc] at h

/-- C6: the Session state machine — every Session phase is one of OPEN,
STOPPING, CLOSED; open/stop/close either leave the phase unchanged (and
report an error) or move it along the edges CLOSED →(open)→ OPEN →(stop)→
STOPPING →(close)→ CLOSED; Entity Access calls are invalid outside OPEN
(they return the INTERNAL "Session not open" error with no output), and
after a successful `session_close` a subsequent Entity Access call on the
Session returns an error rather than succeeding. -/
theorem session_lifecycle_state_machine :
    (∀ p : SessionPhase,
      p = SessionPhase.OPEN ∨ p = SessionPhase.STOPPING ∨ p = SessionPhase.CLOSED) ∧
    (∀ ss, (m_session_open ss).1.phase = ss.phase ∨
      (ss.phase = SessionPhase.CLOSED ∧ (m_session_open ss).1.phase = SessionPhase.OPEN ∧
        (m_session_open ss).2 = HPMError.SUCCESS)) ∧
    (∀ ss, (m_session_stop ss).1.phase = ss.phase ∨
      (ss.phase = SessionPhase.OPEN ∧ (m_session_stop ss).1.phase = SessionPhase.STOPPING ∧
        (m_session_stop ss).2 = HPMError.SUCCESS)) ∧
    (∀ ss, (m_session_close ss).1.phase = ss.phase ∨
      (ss.phase = SessionPhase.STOPPING ∧ (m_session_close ss).1.phase = SessionPhase.CLOSED ∧
        (m_session_close ss).2 = HPMError.SUCCESS)) ∧
    (∀ srv ss tid, ss.phase ≠ SessionPhase.OPEN →
      m_task_get_description srv ss tid = (HPMError.INTERNAL, none)) ∧
    (∀ srv ss tid, (m_session_close ss).2 = HPMError.SUCCESS →
      (m_task_get_description srv (m_session_close ss).1 tid).1 ≠ HPMError.SUCCESS) := by
  refine ⟨?_, ?_, ?_, ?_, ?_, ?_⟩
  · intro p
    cases p <;> simp
  · intro ss
    unfold m_session_open
    by_cases hc : ss.phase = SessionPhase.CLOSED
    · right
      simp [hc]
    · left
      simp [hc]
  · intro ss
    unfold m_session_stop
    by_cases hc : ss.phase = SessionPhase.OPEN
    · right
      simp [hc]
    · left
      simp [hc]
  · intro ss
    unfold m_session_close
    by_cases hc : ss.phase = SessionPhase.STOPPING
    · right
      simp [hc]
    · left
      simp [hc]
  · intro srv ss tid hph
    simp [m_task_get_description, idCheck, hph]
  · intro srv ss tid hcl
    unfold m_session_close at hcl ⊢
    by_cases hc : ss.phase = SessionPhase.STOPPING
    · simp [hc, m_task_get_description, idCheck]
    · simp [hc] at hcl

/-- C7: `session_process` on a Session with no pending network work returns
SUCCESS and changes no observable state (a safe speculative no-op). -/
theorem process_no_pending_work_noop (ss : SessionState) (h : ss.pending = []) :
    m_session_process ss = (ss, HPMError.SUCCESS) := by
  unfold m_session_process
  rw [h]

/-- C8: edge-case error policy — an Entity Access operation applied to a
deleted identifier returns NOT_FOUND, and applied to a live but unauthorized
identifier returns PERMISSION_DENIED (both distinct from INVALID_ARGUMENT);
and `task_create_unified` given a malformed payload (missing required title)
returns INVALID_ARGUMENT by cheap local validation, before any network
round-trip (server and session state, including the round-trip count, are
untouched). -/
theorem edge_case_error_policy :
    (∀ srv ss tid, ss.phase = SessionPhase.OPEN → tid ∈ srv.deleted →
      (m_task_get_description srv ss tid).1 = HPMError.NOT_FOUND ∧
      (m_task_ref_get_task srv ss tid).1 = HPMError.NOT_FOUND) ∧
    (∀ srv ss tid, ss.phase = SessionPhase.OPEN → tid ∉ srv.deleted →
      tid ∈ srv.live → srv.auth tid = false →
      (m_task_get_description srv ss tid).1 = HPMError.PERMISSION_DENIED ∧
      (m_task_ref_get_task srv ss tid).1 = HPMError.PERMISSION_DENIED) ∧
    (HPMError.NOT_FOUND ≠ HPMError.INVALID_ARGUMENT ∧
      HPMError.PERMISSION_DENIED ≠ HPMError.INVALID_ARGUMENT) ∧
    (∀ srv ss cid t, ss.phase = SessionPhase.OPEN → t.title = none →
      m_task_create_unified srv ss cid t = (srv, ss, HPMError.INVALID_ARGUMENT, none)) := by
  refine ⟨?_, ?_, by simp, ?_⟩
  · intro srv ss tid h1 h2
    constructor
    · simp [m_task_get_description, idCheck, h1, h2]
    · simp [m_task_ref_get_task, idCheck, h1, h2]
  · intro srv ss tid h1 h2 h3 h4
    constructor
    · simp [m_task_get_description, idCheck, h1, h2, h3, h4]
    · simp [m_task_ref_get_task, idCheck, h1, h2, h3, h4]
  · intro srv ss cid t h1 h2
    simp [m_task_create_unified, h1, h2]

/-- C9: `localization_translate_string` is, from the caller's perspective, a
pure function of its inputs — it mutates no observable server or session
state; two calls whose states agree on the localization tables return the
same (Error, translated string) outcome regardless of any other state; and
it reports NOT_FOUND exactly when the template has no mapping for the
requested language and no fallback mapping exists. -/
theorem translate_string_pure_and_not_found_iff :
    (∀ srv ss lang tmpl,
      (m_localization_translate_string srv ss lang tmpl).1 = srv ∧
      (m_localization_translate_string srv ss lang tmpl).2.1 = ss) ∧
    (∀ srv1 srv2 ss1 ss2 lang tmpl,
      srv1.translations = srv2.translations → srv1.fallback = srv2.fallback →
      (m_localization_translate_string srv1 ss1 lang tmpl).2.2 =
        (m_localization_translate_string srv2 ss2 lang tmpl).2.2) ∧
    (∀ srv ss lang tmpl,
      (m_localization_translate_string srv ss lang tmpl).2.2.1 = HPMError.NOT_FOUND ↔
        (srv.translations lang tmpl = none ∧ srv.fallback tmpl = none)) := by
  refine ⟨?_, ?_, ?_⟩
  · intro srv ss lang tmpl
    unfold m_localization_translate_string
    split
    · simp
    · split <;> simp
  · intro srv1 srv2 ss1 ss2 lang tmpl ht hf
    unfold m_localization_translate_string
    rw [ht, hf]
    split
    · simp
    · split <;> simp
  · intro srv ss lang tmpl
    cases h1 : srv.translations lang tmpl with
    | some s => simp [m_localization_translate_string, h1]
    | none =>
        cases h2 : srv.fallback tmpl with
        | some s => simp [m_localization_translate_string, h1, h2]
        | none => simp [m_localization_translate_string, h1, h2]

/-- C2: every Entity Access and Session wrapper operation is a single
direct call through the external function table — for every function table,
world state and argument list, the wrapper's result (returned Error Result,
out-parameter values, and effect on the world) is exactly that of the
corresponding function-table entry applied once to the same arguments, with
no retries, no local recovery, and no other observable effect. -/
theorem wrapper_forwards_to_function_table :
    (∀ (W : Type) (f : HPMSdkFunctions W) (w : W) a p d r pw b cb v dbg n wd cs,
      session_open f w a p d r pw b cb v dbg n wd cs = f.SessionOpen w a p d r pw b cb v dbg n wd cs) ∧
    (∀ (W : Type) (f : HPMSdkFunctions W) (w : W) s, session_stop f w s = f.SessionStop w s) ∧
    (∀ (W : Type) (f : HPMSdkFunctions W) (w : W) s, session_close f w s = f.SessionClose w s) ∧
    (∀ (W : Type) (f : HPMSdkFunctions W) (w : W) s, session_process f w s = f.SessionProcess w s) ∧
    (∀ (W : Type) (f : HPMSdkFunctions W) (w : W) s, project_enum f w s = f.ProjectEnum w s) ∧
    (∀ (W : Type) (f : HPMSdkFunctions W) (w : W) s i, project_util_get_backlog f w s i = f.ProjectUtilGetBacklog w s i) ∧
    (∀ (W : Type) (f : HPMSdkFunctions W) (w : W) s i, project_get_milestones f w s i = f.ProjectGetMilestones w s i) ∧
    (∀ (W : Type) (f : HPMSdkFunctions W) (w : W) s i, project_get_sprints f w s i = f.ProjectGetSprints w s i) ∧
    (∀ (W : Type) (f : HPMSdkFunctions W) (w : W) s i, project_get_properties f w s i = f.ProjectGetProperties w s i) ∧
    (∀ (W : Type) (f : HPMSdkFunctions W) (w : W) s i b, project_workflow_enum f w s i b = f.ProjectWorkflowEnum w s i b) ∧
    (∀ (W : Type) (f : HPMSdkFunctions W) (w : W) s i j, project_workflow_get_settings f w s i j = f.ProjectWorkflowGetSettings w s i j) ∧
    (∀ (W : Type) (f : HPMSdkFunctions W) (w : W) s i, project_custom_columns_get f w s i = f.ProjectCustomColumnsGet w s i) ∧
    (∀ (W : Type) (f : HPMSdkFunctions W) (w : W) s i, project_resource_enum f w s i = f.ProjectResourceEnum w s i) ∧
    (∀ (W : Type) (f : HPMSdkFunctions W) (w : W) s i, task_enum f w s i = f.TaskEnum w s i) ∧
    (∀ (W : Type) (f : HPMSdkFunctions W) (w : W) s i, task_ref_enum f w s i = f.TaskRefEnum w s i) ∧
    (∀ (W : Type) (f : HPMSdkFunctions W) (w : W) s i, task_get_description f w s i = f.TaskGetDescription w s i) ∧
    (∀ (W : Type) (f : HPMSdkFunctions W) (w : W) s i d, task_set_description f w s i d = f.TaskSetDescription w s i d) ∧
    (∀ (W : Type) (f : HPMSdkFunctions W) (w : W) s i, task_get_linked_to_milestones f w s i = f.TaskGetLinkedToMilestones w s i) ∧
    (∀ (W : Type) (f : HPMSdkFunctions W) (w : W) s i d, task_set_linked_to_milestones f w s i d = f.TaskSetLinkedToMilestones w s i d) ∧
    (∀ (W : Type) (f : HPMSdkFunctions W) (w : W) s i, task_get_linked_to_sprint f w s i = f.TaskGetLinkedToSprint w s i) ∧
    (∀ (W : Type) (f : HPMSdkFunctions W) (w : W) s i, task_get_status f w s i = f.TaskGetStatus w s i) ∧
    (∀ (W : Type) (f : HPMSdkFunctions W) (w : W) s i d g fl, task_set_status f w s i d g fl = f.TaskSetStatus w s i d g fl) ∧
    (∀ (W : Type) (f : HPMSdkFunctions W) (w : W) s i, task_get_workflow f w s i = f.TaskGetWorkflow w s i) ∧
    (∀ (W : Type) (f : HPMSdkFunctions W) (w : W) s i, task_get_workflow_status f w s i = f.TaskGetWorkflowStatus w s i) ∧
    (∀ (W : Type) (f : HPMSdkFunctions W) (w : W) s i d fl, task_set_workflow_status f w s i d fl = f.TaskSetWorkflowStatus w s i d fl) ∧
    (∀ (W : Type) (f : HPMSdkFunctions W) (w : W) s i c, task_create_unified f w s i c = f.TaskCreateUnified w s i c) ∧
    (∀ (W : Type) (f : HPMSdkFunctions W) (w : W) s i, task_get_estimated_ideal_days f w s i = f.TaskGetEstimatedIdealDays w s i) ∧
    (∀ (W : Type) (f : HPMSdkFunctions W) (w : W) s i d, task_set_estimated_ideal_days f w s i d = f.TaskSetEstimatedIdealDays w s i d) ∧
    (∀ (W : Type) (f : HPMSdkFunctions W) (w : W) s i, task_get_resource_allocation f w s i = f.TaskGetResourceAllocation w s i) ∧
    (∀ (W : Type) (f : HPMSdkFunctions W) (w : W) s i d g fl, task_set_resource_allocation f w s i d g fl = f.TaskSetResourceAllocation w s i d g fl) ∧
    (∀ (W : Type) (f : HPMSdkFunctions W) (w : W) s i, task_get_hyperlink f w s i = f.TaskGetHyperlink w s i) ∧
    (∀ (W : Type) (f : HPMSdkFunctions W) (w : W) s i d, task_set_hyperlink f w s i d = f.TaskSetHyperlink w s i d) ∧
    (∀ (W : Type) (f : HPMSdkFunctions W) (w : W) s i, task_get_backlog_priority f w s i = f.TaskGetBacklogPriority w s i) ∧
    (∀ (W : Type) (f : HPMSdkFunctions W) (w : W) s i d, task_set_backlog_priority f w s i d = f.TaskSetBacklogPriority w s i d) ∧
    (∀ (W : Type) (f : HPMSdkFunctions W) (w : W) s i, task_get_main_reference f w s i = f.TaskGetMainReference w s i) ∧
    (∀ (W : Type) (f : HPMSdkFunctions W) (w : W) s i, task_ref_get_task f w s i = f.TaskRefGetTask w s i) ∧
    (∀ (W : Type) (f : HPMSdkFunctions W) (w : W) s i, task_ref_get_container f w s i = f.TaskRefGetContainer w s i) ∧
    (∀ (W : Type) (f : HPMSdkFunctions W) (w : W) s i, resource_get_properties f w s i = f.ResourceGetProperties w s i) ∧
    (∀ (W : Type) (f : HPMSdkFunctions W) (w : W) s, util_get_no_milestone_id f w s = f.UtilGetNoMilestoneID w s) ∧
    (∀ (W : Type) (f : HPMSdkFunctions W) (w : W) s l u, localization_translate_string f w s l u = f.LocalizationTranslateString w s l u) ∧
    (∀ (W : Type) (f : HPMSdkFunctions W) (w : W) s o, object_free f w s o = f.ObjectFree w s o) := by
  refine ⟨?_, ?_, ?_, ?_, ?_, ?_, ?_, ?_, ?_, ?_, ?_, ?_, ?_, ?_, ?_, ?_, ?_, ?_, ?_, ?_, ?_,
    ?_, ?_, ?_, ?_, ?_, ?_, ?_, ?_, ?_, ?_, ?_, ?_, ?_, ?_, ?_, ?_, ?_, ?_, ?_, ?_⟩ <;>
    intros <;> rfl

/-- C10: `session_open` is the only public operation delivering its Error
Result through an out-parameter (`_pError`, with the optional
extended-error-message out-parameter) while returning the opaque session
pointer; every other public operation returns its `HPMError` directly, and
`object_free` is the only operation with the separate `_pDeleted`
out-parameter. -/
theorem error_delivery_abi_shape :
    (publicOps.filter
      (fun o => decide (o.errorDelivery = ErrorDelivery.viaOutParam))).map OpSig.name =
      ["session_open"] ∧
    (∀ o ∈ publicOps, o.errorDelivery = ErrorDelivery.viaOutParam →
      o.returnsSessionPointer = true ∧ o.hasExtendedErrorMessageOut = true) ∧
    (∀ o ∈ publicOps, o.name ≠ "session_open" →
      o.errorDelivery = ErrorDelivery.viaReturnValue) ∧
    (publicOps.filter (fun o => o.hasDeletedOut)).map OpSig.name = ["object_free"] := by
  refine ⟨by decide, by decide, by decide, by decide⟩

/-- Witness for C3 at a concrete arena: object 1 (containing nested object
2) is tracked in `ssOpenW`; after freeing handle 1, freeing nested handle 2
reports "not deleted". -/
theorem object_free_double_release_not_deleted_witness :
    ssOpenW.olm.tracked.find? (fun p => decide (p.handle = 1)) =
      some ⟨1, [2]⟩ ∧
    (2 : Nat) ∈ (⟨1, [2]⟩ : TrackedObject).nested ∧
    (m_object_free (m_object_free ssOpenW 1).1 2).2.2 = false :=
  ⟨by decide, by decide,
   object_free_double_release_not_deleted.2 ssOpenW 1 2 ⟨1, [2]⟩ (by decide) (by decide)⟩

/-- Witness for C4 at a concrete state: setting task 1's description to
"hello" succeeds, and the subsequent get observes "hello". -/
theorem set_then_get_reads_new_value_witness :
    (m_task_set_description srvW ssOpenW 1 "hello").2 = HPMError.SUCCESS ∧
    m_task_get_description (m_task_set_description srvW ssOpenW 1 "hello").1 ssOpenW 1 =
      (HPMError.SUCCESS, some "hello") :=
  ⟨by rfl, set_then_get_reads_new_value srvW ssOpenW 1 "hello" (by rfl)⟩

/-- Witness for C5 at a concrete state: closing the stopping session
`ssStopW` (which still tracks an object) succeeds and leaves no tracked
object. -/
theorem session_close_clears_tracked_objects_witness :
    (m_session_close ssStopW).2 = HPMError.SUCCESS ∧
    ((m_session_close ssStopW).1).olm.tracked = [] :=
  ⟨by rfl, session_close_clears_tracked_objects ssStopW (by rfl)⟩

/-- Witness for C6 at a concrete state: closing `ssStopW` succeeds, and a
subsequent Entity Access call on the closed Session does not succeed. -/
theorem session_lifecycle_state_machine_witness :
    (m_session_close ssStopW).2 = HPMError.SUCCESS ∧
    (m_task_get_description srvW (m_session_close ssStopW).1 1).1 ≠ HPMError.SUCCESS :=
  ⟨by rfl, session_lifecycle_state_machine.2.2.2.2.2 srvW ssStopW 1 (by rfl)⟩

/-- Witness for C7 at a concrete state: `ssOpenW` has no pending work, and
processing it returns SUCCESS with the state unchanged. -/
theorem process_no_pending_work_noop_witness :
    ssOpenW.pending = [] ∧
    m_session_process ssOpenW = (ssOpenW, HPMError.SUCCESS) :=
  ⟨rfl, process_no_pending_work_noop ssOpenW rfl⟩

/-- Witness for C8 at concrete states: identifier 9 is deleted in `srvW`
and gets NOT_FOUND; identifier 5 is live but unauthorized and gets
PERMISSION_DENIED; creating under container 7 with a payload missing its
title is rejected with INVALID_ARGUMENT and no state change. -/
theorem edge_case_error_policy_witness :
    (m_task_get_description srvW ssOpenW 9).1 = HPMError.NOT_FOUND ∧
    (m_task_get_description srvW ssOpenW 5).1 = HPMError.PERMISSION_DENIED ∧
    m_task_create_unified srvW ssOpenW 7 ⟨none⟩ =
      (srvW, ssOpenW, HPMError.INVALID_ARGUMENT, none) :=
  ⟨(edge_case_error_policy.1 srvW ssOpenW 9 (by rfl) (by decide)).1,
   (edge_case_error_policy.2.1 srvW ssOpenW 5 (by rfl) (by decide) (by decide) (by rfl)).1,
   edge_case_error_policy.2.2.2 srvW ssOpenW 7 ⟨none⟩ (by rfl) (by rfl)⟩

/-- Witness for C9 at concrete states: translating the same template with
the same tables from two different session states yields the same
(Error, translated string) outcome. -/
theorem translate_string_pure_and_not_found_iff_witness :
    (m_localization_translate_string srvW ssOpenW "en" "hi").2.2 =
      (m_localization_translate_string srvW ssStopW "en" "hi").2.2 :=
  translate_string_pure_and_not_found_iff.2.1 srvW srvW ssOpenW ssStopW "en" "hi" rfl rfl

/-- Witness for C10 at a concrete descriptor: `object_free` is a public
operation other than `session_open`, and its Error Result is delivered as
the function's return value. -/
theorem error_delivery_abi_shape_witness :
    (⟨"object_free", ErrorDelivery.viaReturnValue, false, false, true⟩ : OpSig).errorDelivery =
      ErrorDelivery.viaReturnValue :=
  error_delivery_abi_shape.2.2.1
    ⟨"object_free", ErrorDelivery.viaReturnValue, false, false, true⟩
    (by decide) (by decide)
